import Mathlib

/-!
# Verification of the Task Persistence & Reminder Scheduling Engine

A shallow embedding of the task-manager core (task types, the reminder
evaluator, the notification dispatcher, the storage service and the task
lifecycle service) together with theorems settling the specification
claims against it.

Modelling conventions:
* JS millisecond timestamps are `Int`.
* A JS `Date` object is `JSDate := Option Int`: `some t` is a valid date
  with epoch time `t`, `none` is an invalid date (`getTime()` is `NaN`).
* A field of type `T | null`, or a possibly-absent (`undefined`) field,
  is `Option _`.
* `Array.prototype.sort` with a consistent comparator `c` is modelled by
  the stable `List.mergeSort` with `le a b := c a b ≤ 0`.
-/

namespace TodoApp

/-- A JS `Date` object: `some t` = valid date with epoch-millisecond time `t`,
`none` = invalid date (NaN time).  Written as a plain `Option Int` so that
arithmetic over times stays over `Int`. -/
abbrev JSDate := Option Int

/-- `TaskCategory` enum from `types/task.ts`. -/
inductive TaskCategory
  | WORK
  | STUDY
  | LIFE
deriving DecidableEq, Repr

/-- `TaskPriority` enum from `types/task.ts`. -/
inductive TaskPriority
  | HIGH
  | MEDIUM
  | LOW
deriving DecidableEq, Repr

/-- `TaskStatus` enum from `types/task.ts`. -/
inductive TaskStatus
  | PENDING
  | COMPLETED
deriving DecidableEq, Repr

/-- `ReminderOption` enum from `types/task.ts`. -/
inductive ReminderOption
  | NONE
  | AT_TIME
  | FIVE_MIN
  | FIFTEEN_MIN
  | THIRTY_MIN
  | ONE_HOUR
  | TWO_HOURS
  | ONE_DAY
deriving DecidableEq, Repr

/-- `REMINDER_ADVANCE_TIME` table from `types/task.ts` (milliseconds). -/
def REMINDER_ADVANCE_TIME : ReminderOption → Int
  | ReminderOption.NONE => -1
  | ReminderOption.AT_TIME => 0
  | ReminderOption.FIVE_MIN => 5 * 60 * 1000
  | ReminderOption.FIFTEEN_MIN => 15 * 60 * 1000
  | ReminderOption.THIRTY_MIN => 30 * 60 * 1000
  | ReminderOption.ONE_HOUR => 60 * 60 * 1000
  | ReminderOption.TWO_HOURS => 2 * 60 * 60 * 1000
  | ReminderOption.ONE_DAY => 24 * 60 * 60 * 1000

/-- The `Task` record from `types/task.ts`.  `dueDate` is `Date | null`
(dates held in task records are produced through the validated lifecycle
paths, hence carried as valid epoch times); `reminderOption` is `Option`al
because the `createTask` object literal omits the field (JS `undefined`)
and the evaluator defensively tests `!task.reminderOption`. -/
structure Task where
  id : String
  title : String
  description : String
  category : TaskCategory
  priority : TaskPriority
  status : TaskStatus
  dueDate : Option Int
  reminderOption : Option ReminderOption
  createdAt : Int
  updatedAt : Int
  notificationSent : Bool
deriving DecidableEq, Repr

/-! ## Reminder Evaluator (`notificationService.ts`, `checkTasksForNotification`) -/

/-- The filter predicate of `checkTasksForNotification`, check for check in
source order: completed status, missing due date, missing/none reminder,
already-notified flag, negative advance time, and finally the time window
`now >= dueTime - advanceTime && now <= dueTime + 60*60*1000`. -/
def taskQualifies (now : Int) (task : Task) : Bool :=
  if task.status = TaskStatus.COMPLETED then false
  else
    match task.dueDate with
    | none => false
    | some dueTime =>
      match task.reminderOption with
      | none => false
      | some ro =>
        if ro = ReminderOption.NONE then false
        else if task.notificationSent then false
        else
          let advanceTime := REMINDER_ADVANCE_TIME ro
          if advanceTime < 0 then false
          else
            let reminderTime := dueTime - advanceTime
            decide (reminderTime ≤ now ∧ now ≤ dueTime + 60 * 60 * 1000)

/-- `NotificationService.checkTasksForNotification`, with the implicit
`new Date().getTime()` made an explicit `now` parameter. -/
def NotificationService.checkTasksForNotification (tasks : List Task) (now : Int) : List Task :=
  tasks.filter (taskQualifies now)

/-- Characterization of the evaluator's filter predicate. -/
theorem taskQualifies_iff (now : Int) (task : Task) :
    taskQualifies now task = true ↔
      task.status ≠ TaskStatus.COMPLETED ∧
      task.notificationSent = false ∧
      ∃ dueTime : Int, ∃ r : ReminderOption,
        task.dueDate = some dueTime ∧
        task.reminderOption = some r ∧
        r ≠ ReminderOption.NONE ∧
        dueTime - REMINDER_ADVANCE_TIME r ≤ now ∧
        now ≤ dueTime + 60 * 60 * 1000 := by
  obtain ⟨tid, ttl, dsc, cat, pri, st, due, ro, ca, ua, ns⟩ := task
  cases st <;> rcases due with _ | d <;> rcases ro with _ | r <;> cases ns <;>
    (try cases r) <;> simp [taskQualifies, REMINDER_ADVANCE_TIME]

/-- C1: the Reminder Evaluator includes a task iff it is in the input list,
its status is not completed, its notified flag is false, its due date is
set, its reminder option is set and not `none`, and `now` lies in the
closed interval `[dueDate - leadDuration, dueDate + 1 hour]`; and the lead
table maps at-time→0, 5m→300000, 15m→900000, 30m→1800000, 1h→3600000,
2h→7200000, 1d→86400000 milliseconds. -/
theorem C1_evaluator_characterization :
    (∀ (tasks : List Task) (now : Int) (task : Task),
      task ∈ NotificationService.checkTasksForNotification tasks now ↔
        task ∈ tasks ∧
        task.status ≠ TaskStatus.COMPLETED ∧
        task.notificationSent = false ∧
        ∃ dueTime : Int, ∃ r : ReminderOption,
          task.dueDate = some dueTime ∧
          task.reminderOption = some r ∧
          r ≠ ReminderOption.NONE ∧
          dueTime - REMINDER_ADVANCE_TIME r ≤ now ∧
          now ≤ dueTime + 60 * 60 * 1000) ∧
    REMINDER_ADVANCE_TIME ReminderOption.AT_TIME = 0 ∧
    REMINDER_ADVANCE_TIME ReminderOption.FIVE_MIN = 300000 ∧
    REMINDER_ADVANCE_TIME ReminderOption.FIFTEEN_MIN = 900000 ∧
    REMINDER_ADVANCE_TIME ReminderOption.THIRTY_MIN = 1800000 ∧
    REMINDER_ADVANCE_TIME ReminderOption.ONE_HOUR = 3600000 ∧
    REMINDER_ADVANCE_TIME ReminderOption.TWO_HOURS = 7200000 ∧
    REMINDER_ADVANCE_TIME ReminderOption.ONE_DAY = 86400000 := by
  refine ⟨?_, rfl, rfl, rfl, rfl, rfl, rfl, rfl⟩
  intro tasks now task
  rw [NotificationService.checkTasksForNotification, List.mem_filter, taskQualifies_iff]

/-- A concrete COMPLETED task that is due in 5 minutes (relative to `now = 0`),
with a 5-minute reminder lead and an unset notified flag. -/
def completedSoonTask : Task :=
  { id := "c1", title := "done already", description := "",
    category := TaskCategory.WORK, priority := TaskPriority.MEDIUM,
    status := TaskStatus.COMPLETED, dueDate := some (0 + 5 * 60 * 1000),
    reminderOption := some ReminderOption.FIVE_MIN,
    createdAt := 0, updatedAt := 0, notificationSent := false }

/-- C2 counterexample: a task satisfying all conditions listed by the claim
(`dueDate = now + 5min`, `reminderOption = 5min`, `notified = false`) is
nevertheless excluded by the Evaluator when its status is completed, so the
claim's unconditional "for every task" quantification is false. -/
theorem C2_counterexample :
    completedSoonTask.dueDate = some (0 + 5 * 60 * 1000) ∧
    completedSoonTask.reminderOption = some ReminderOption.FIVE_MIN ∧
    completedSoonTask.notificationSent = false ∧
    completedSoonTask ∉ NotificationService.checkTasksForNotification [completedSoonTask] 0 := by
  refine ⟨rfl, rfl, rfl, ?_⟩
  simp [NotificationService.checkTasksForNotification, taskQualifies, completedSoonTask]

/-- C2 (amended): for every task that is additionally not completed, with
`dueDate = now + 5min`, `reminderOption = 5min` and `notified = false`, the
Evaluator includes it at `now`; once the notified flag is set to true, a
second evaluation of the resulting collection at the same instant excludes
it — the reminder fires exactly once per due cycle. -/
theorem C2_exactly_once (task : Task) (now : Int)
    (hst : task.status ≠ TaskStatus.COMPLETED)
    (hdue : task.dueDate = some (now + 5 * 60 * 1000))
    (hro : task.reminderOption = some ReminderOption.FIVE_MIN)
    (hns : task.notificationSent = false) :
    NotificationService.checkTasksForNotification [task] now = [task] ∧
    NotificationService.checkTasksForNotification
      [{ task with notificationSent := true }] now = [] := by
  constructor
  · have hq : taskQualifies now task = true := by
      rw [taskQualifies_iff]
      refine ⟨hst, hns, now + 5 * 60 * 1000, ReminderOption.FIVE_MIN, hdue, hro,
        by decide, ?_, ?_⟩
      · simp only [REMINDER_ADVANCE_TIME]
        omega
      · omega
    simp [NotificationService.checkTasksForNotification, hq]
  · have hq : taskQualifies now { task with notificationSent := true } = false := by
      simp [taskQualifies, hdue, hro]
    simp [NotificationService.checkTasksForNotification, hq]

/-- A concrete pending task due in 5 minutes (relative to `now = 0`) with a
5-minute reminder lead. -/
def pendingSoonTask : Task :=
  { id := "t1", title := "write report", description := "",
    category := TaskCategory.WORK, priority := TaskPriority.MEDIUM,
    status := TaskStatus.PENDING, dueDate := some (0 + 5 * 60 * 1000),
    reminderOption := some ReminderOption.FIVE_MIN,
    createdAt := 0, updatedAt := 0, notificationSent := false }

/-- C2 witness: the amended exactly-once property instantiated at a concrete
pending task and `now = 0`. -/
theorem C2_exactly_once_witness :
    NotificationService.checkTasksForNotification [pendingSoonTask] 0 = [pendingSoonTask] ∧
    NotificationService.checkTasksForNotification
      [{ pendingSoonTask with notificationSent := true }] 0 = [] :=
  C2_exactly_once pendingSoonTask 0 (by decide) rfl rfl rfl

/-! ## Sort utilities (`sortUtils.ts`)

`Array.prototype.sort` with a consistent numeric comparator `c` is a stable
sort whose output is ordered by `c a b ≤ 0`; it is modelled by
`List.mergeSort` over the boolean relation `le a b := c a b ≤ 0`. -/

/-- `PRIORITY_WEIGHT` from `sortUtils.ts` (high = smaller number = first). -/
def PRIORITY_WEIGHT : TaskPriority → Int
  | TaskPriority.HIGH => 0
  | TaskPriority.MEDIUM => 1
  | TaskPriority.LOW => 2

/-- `sortByPriority`'s comparator `PRIORITY_WEIGHT[a.priority] -
PRIORITY_WEIGHT[b.priority]`, as the relation `comparator a b ≤ 0`. -/
def priorityLe (a b : Task) : Bool :=
  decide (PRIORITY_WEIGHT a.priority - PRIORITY_WEIGHT b.priority ≤ 0)

/-- `sortByDueDate`'s comparator as `comparator a b ≤ 0`: the source returns
0 when both due dates are null, 1 when only `a`'s is null, -1 when only
`b`'s is null, and the millisecond difference otherwise. -/
def dueDateLe (a b : Task) : Bool :=
  match a.dueDate, b.dueDate with
  | none, none => true
  | none, some _ => false
  | some _, none => true
  | some x, some y => decide (x - y ≤ 0)

/-- `sortByCreatedDate`'s comparator `b.createdAt - a.createdAt`, as
`comparator a b ≤ 0` (newest first). -/
def createdDateLe (a b : Task) : Bool :=
  decide (b.createdAt - a.createdAt ≤ 0)

/-- `sortByPriority` from `sortUtils.ts`. -/
def sortByPriority (tasks : List Task) : List Task :=
  tasks.mergeSort priorityLe

/-- `sortByDueDate` from `sortUtils.ts`. -/
def sortByDueDate (tasks : List Task) : List Task :=
  tasks.mergeSort dueDateLe

/-- `sortByCreatedDate` from `sortUtils.ts`. -/
def sortByCreatedDate (tasks : List Task) : List Task :=
  tasks.mergeSort createdDateLe

/-- `SortBy` enum from `types/filter.ts`. -/
inductive SortBy
  | CREATED_DATE
  | DUE_DATE
  | PRIORITY
deriving DecidableEq, Repr

/-- `sortTasks` from `sortUtils.ts`; the switch's `default` branch coincides
with the `CREATED_DATE` branch. -/
def sortTasks (tasks : List Task) (sortBy : SortBy) : List Task :=
  match sortBy with
  | SortBy.PRIORITY => sortByPriority tasks
  | SortBy.DUE_DATE => sortByDueDate tasks
  | SortBy.CREATED_DATE => sortByCreatedDate tasks

theorem priorityLe_trans (a b c : Task) (h1 : priorityLe a b = true)
    (h2 : priorityLe b c = true) : priorityLe a c = true := by
  simp only [priorityLe, decide_eq_true_eq] at *
  omega

theorem priorityLe_total (a b : Task) : (priorityLe a b || priorityLe b a) = true := by
  simp only [priorityLe, Bool.or_eq_true, decide_eq_true_eq]
  omega

theorem dueDateLe_trans (a b c : Task) (h1 : dueDateLe a b = true)
    (h2 : dueDateLe b c = true) : dueDateLe a c = true := by
  obtain ⟨_, _, _, _, _, _, da, _, _, _, _⟩ := a
  obtain ⟨_, _, _, _, _, _, db, _, _, _, _⟩ := b
  obtain ⟨_, _, _, _, _, _, dc, _, _, _, _⟩ := c
  unfold dueDateLe at *
  rcases da with _ | x <;> rcases db with _ | y <;> rcases dc with _ | z <;>
    simp_all <;> omega

theorem dueDateLe_total (a b : Task) : (dueDateLe a b || dueDateLe b a) = true := by
  obtain ⟨_, _, _, _, _, _, da, _, _, _, _⟩ := a
  obtain ⟨_, _, _, _, _, _, db, _, _, _, _⟩ := b
  unfold dueDateLe
  rcases da with _ | x <;> rcases db with _ | y <;> simp_all <;> omega

theorem createdDateLe_trans (a b c : Task) (h1 : createdDateLe a b = true)
    (h2 : createdDateLe b c = true) : createdDateLe a c = true := by
  simp only [createdDateLe, decide_eq_true_eq] at *
  omega

theorem createdDateLe_total (a b : Task) :
    (createdDateLe a b || createdDateLe b a) = true := by
  simp only [createdDateLe, Bool.or_eq_true, decide_eq_true_eq]
  omega

/-- A concrete low-priority task created later than `highOlderTask`. -/
def lowNewerTask : Task :=
  { id := "a", title := "low prio", description := "",
    category := TaskCategory.WORK, priority := TaskPriority.LOW,
    status := TaskStatus.PENDING, dueDate := none, reminderOption := none,
    createdAt := 999999, updatedAt := 999999, notificationSent := false }

/-- A concrete high-priority task created earlier than `lowNewerTask`. -/
def highOlderTask : Task :=
  { id := "b", title := "high prio", description := "",
    category := TaskCategory.LIFE, priority := TaskPriority.HIGH,
    status := TaskStatus.PENDING, dueDate := none, reminderOption := none,
    createdAt := 0, updatedAt := 0, notificationSent := false }

/-- C6: `sortTasks` returns a permutation of its input ordered, for
`priority`, ascending by rank (high=0, medium=1, low=2); for `dueDate`,
ascending by due time with tasks lacking a due date after all tasks that
have one; for `createdDate`, descending by creation time (newest first).
A high-priority task created earlier sorts before a low-priority task
created later under the priority mode, regardless of `createdAt`. -/
theorem C6_sortTasks_ordering :
    (∀ tasks : List Task,
      (sortTasks tasks SortBy.PRIORITY).Perm tasks ∧
      (sortTasks tasks SortBy.PRIORITY).Pairwise
        (fun a b => PRIORITY_WEIGHT a.priority ≤ PRIORITY_WEIGHT b.priority)) ∧
    (∀ tasks : List Task,
      (sortTasks tasks SortBy.DUE_DATE).Perm tasks ∧
      (sortTasks tasks SortBy.DUE_DATE).Pairwise
        (fun a b =>
          (∀ x : Int, a.dueDate = some x → ∀ y : Int, b.dueDate = some y → x ≤ y) ∧
          (a.dueDate = none → b.dueDate = none))) ∧
    (∀ tasks : List Task,
      (sortTasks tasks SortBy.CREATED_DATE).Perm tasks ∧
      (sortTasks tasks SortBy.CREATED_DATE).Pairwise
        (fun a b => b.createdAt ≤ a.createdAt)) ∧
    sortTasks [lowNewerTask, highOlderTask] SortBy.PRIORITY
      = [highOlderTask, lowNewerTask] := by
  refine ⟨fun tasks => ⟨List.mergeSort_perm tasks priorityLe, ?_⟩,
    fun tasks => ⟨List.mergeSort_perm tasks dueDateLe, ?_⟩,
    fun tasks => ⟨List.mergeSort_perm tasks createdDateLe, ?_⟩, ?_⟩
  · refine (List.sorted_mergeSort priorityLe_trans priorityLe_total tasks).imp ?_
    intro a b h
    simpa [priorityLe] using h
  · refine (List.sorted_mergeSort dueDateLe_trans dueDateLe_total tasks).imp ?_
    intro a b h
    obtain ⟨_, _, _, _, _, _, da, _, _, _, _⟩ := a
    obtain ⟨_, _, _, _, _, _, db, _, _, _, _⟩ := b
    unfold dueDateLe at h
    rcases da with _ | x <;> rcases db with _ | y <;> simp_all
  · refine (List.sorted_mergeSort createdDateLe_trans createdDateLe_total tasks).imp ?_
    intro a b h
    simpa [createdDateLe] using h
  · simp [sortTasks, sortByPriority, List.mergeSort, lowNewerTask, highOlderTask,
      priorityLe, PRIORITY_WEIGHT]

/-! ## Filter utilities (`filterUtils.ts`) -/

/-- `filterByCategory` from `filterUtils.ts`; `none` models the `'all'`
member of `TaskCategory | 'all'`. -/
def filterByCategory (tasks : List Task) (category : Option TaskCategory) : List Task :=
  match category with
  | none => tasks
  | some c => tasks.filter (fun task => decide (task.category = c))

/-- `filterByStatus` from `filterUtils.ts`; `none` models `'all'`. -/
def filterByStatus (tasks : List Task) (status : Option TaskStatus) : List Task :=
  match status with
  | none => tasks
  | some s => tasks.filter (fun task => decide (task.status = s))

/-- `FilterOptions` from `types/filter.ts` (`none` models `'all'`). -/
structure FilterOptions where
  category : Option TaskCategory
  status : Option TaskStatus
  sortBy : SortBy
deriving DecidableEq, Repr

/-- `DEFAULT_FILTER_OPTIONS` from `types/filter.ts`. -/
def DEFAULT_FILTER_OPTIONS : FilterOptions :=
  { category := none, status := none, sortBy := SortBy.CREATED_DATE }

/-- `filterTasks` from `filterUtils.ts`: filter by category, then by status
(only the `category` and `status` members of the options are consulted). -/
def filterTasks (tasks : List Task) (options : FilterOptions) : List Task :=
  filterByStatus (filterByCategory tasks options.category) options.status

/-- C7: with both the category filter and the status filter set to `'all'`,
`filterTasks` returns the input list unchanged in content and order,
whatever the remaining sort member is. -/
theorem C7_filter_all_identity :
    ∀ (tasks : List Task) (sortBy : SortBy),
      filterTasks tasks { category := none, status := none, sortBy := sortBy } = tasks := by
  intro tasks sortBy
  rfl

/-! ## Notification Dispatcher (`notificationService.ts`) -/

/-- `NotificationPermissionStatus` from `notificationService.ts`; `default_`
models the string member `'default'` (a Lean reserved word). -/
inductive NotificationPermissionStatus
  | granted
  | denied
  | default_
  | unsupported
deriving DecidableEq, Repr

/-- Outcome of `requestPermission`: the returned status and whether the
platform prompt `Notification.requestPermission()` was issued. -/
structure RequestPermissionOutcome where
  status : NotificationPermissionStatus
  prompted : Bool
deriving DecidableEq, Repr

/-- `NotificationService.requestPermission`.  `supported` models
`isSupported()`; `permission` models the platform's current
`Notification.permission` (only consulted when supported); `promptResult`
models the platform's answer to the prompt, `none` standing for a browser
whose promise-based call throws (the catch branch returns `'unsupported'`). -/
def NotificationService.requestPermission (supported : Bool)
    (permission : NotificationPermissionStatus)
    (promptResult : Option NotificationPermissionStatus) : RequestPermissionOutcome :=
  if !supported then
    { status := NotificationPermissionStatus.unsupported, prompted := false }
  else if permission ≠ NotificationPermissionStatus.default_ then
    { status := permission, prompted := false }
  else
    match promptResult with
    | some p => { status := p, prompted := true }
    | none => { status := NotificationPermissionStatus.unsupported, prompted := true }

/-- C8: when the platform permission is already `granted` or `denied`,
`requestPermission` issues no platform prompt and returns that status
unchanged; when the capability is absent it returns `unsupported` without
prompting; the platform prompt is issued exactly in the remaining case,
i.e. when the capability is present and the state is `default`. -/
theorem C8_requestPermission_idempotent :
    ∀ promptResult : Option NotificationPermissionStatus,
      NotificationService.requestPermission true NotificationPermissionStatus.granted
          promptResult
        = { status := NotificationPermissionStatus.granted, prompted := false } ∧
      NotificationService.requestPermission true NotificationPermissionStatus.denied
          promptResult
        = { status := NotificationPermissionStatus.denied, prompted := false } ∧
      (∀ permission : NotificationPermissionStatus,
        NotificationService.requestPermission false permission promptResult
          = { status := NotificationPermissionStatus.unsupported, prompted := false }) ∧
      (NotificationService.requestPermission true NotificationPermissionStatus.default_
          promptResult).prompted = true := by
  intro promptResult
  refine ⟨rfl, rfl, fun permission => rfl, ?_⟩
  cases promptResult <;> rfl

/-- The observable effects of one `processTaskReminders` run: the returned
list, the native notification attempts with their (ignored) success bits,
and the batch handed to the in-app fallback callback if it was invoked. -/
structure ProcessRemindersResult where
  returned : List Task
  nativeAttempts : List (Task × Bool)
  inAppBatch : Option (List Task)
deriving DecidableEq, Repr

/-- `NotificationService.processTaskReminders`: evaluates the task list and,
only when some task qualifies, either attempts a native notification per
task (permission granted; `sendOk` models each `sendTaskReminder` result,
which the source ignores) or invokes the registered in-app callback once
with the whole batch (permission not granted and a callback registered), or
does nothing (permission not granted, no callback).  The qualifying list is
returned in every branch. -/
def NotificationService.processTaskReminders (tasks : List Task) (now : Int)
    (permission : NotificationPermissionStatus) (hasCallback : Bool)
    (sendOk : Task → Bool) : ProcessRemindersResult :=
  let tasksToRemind := NotificationService.checkTasksForNotification tasks now
  if tasksToRemind.isEmpty then
    { returned := [], nativeAttempts := [], inAppBatch := none }
  else if permission = NotificationPermissionStatus.granted then
    { returned := tasksToRemind,
      nativeAttempts := tasksToRemind.map (fun t => (t, sendOk t)),
      inAppBatch := none }
  else if hasCallback then
    { returned := tasksToRemind, nativeAttempts := [], inAppBatch := some tasksToRemind }
  else
    { returned := tasksToRemind, nativeAttempts := [], inAppBatch := none }

theorem processTaskReminders_returned (tasks : List Task) (now : Int)
    (permission : NotificationPermissionStatus) (hasCallback : Bool)
    (sendOk : Task → Bool) :
    (NotificationService.processTaskReminders tasks now permission hasCallback
        sendOk).returned
      = NotificationService.checkTasksForNotification tasks now := by
  by_cases h : (NotificationService.checkTasksForNotification tasks now).isEmpty
  · simp [NotificationService.processTaskReminders, h, List.isEmpty_iff.mp h]
  · have h1 : (NotificationService.checkTasksForNotification tasks now).isEmpty = false :=
      Bool.eq_false_iff.mpr h
    simp only [NotificationService.processTaskReminders, h1, Bool.false_eq_true,
      if_false]
    split_ifs <;> rfl

/-- C9: `processTaskReminders` returns exactly the evaluator's selection —
independently of the permission state, of each native send's success and of
whether an in-app callback is registered — so the caller marks every
qualifying task as notified even when permission is not granted and no
fallback callback exists, in which case nothing is delivered on any channel. -/
theorem C9_process_returns_selection :
    ∀ (tasks : List Task) (now : Int) (sendOk : Task → Bool),
      (∀ (permission : NotificationPermissionStatus) (hasCallback : Bool),
        (NotificationService.processTaskReminders tasks now permission hasCallback
            sendOk).returned
          = NotificationService.checkTasksForNotification tasks now) ∧
      ((NotificationService.processTaskReminders tasks now
          NotificationPermissionStatus.denied false sendOk).nativeAttempts = [] ∧
        (NotificationService.processTaskReminders tasks now
          NotificationPermissionStatus.denied false sendOk).inAppBatch = none) ∧
      ((NotificationService.processTaskReminders tasks now
          NotificationPermissionStatus.default_ false sendOk).nativeAttempts = [] ∧
        (NotificationService.processTaskReminders tasks now
          NotificationPermissionStatus.default_ false sendOk).inAppBatch = none) ∧
      ((NotificationService.processTaskReminders tasks now
          NotificationPermissionStatus.unsupported false sendOk).nativeAttempts = [] ∧
        (NotificationService.processTaskReminders tasks now
          NotificationPermissionStatus.unsupported false sendOk).inAppBatch = none) := by
  intro tasks now sendOk
  refine ⟨fun permission hasCallback =>
    processTaskReminders_returned tasks now permission hasCallback sendOk, ?_, ?_, ?_⟩ <;>
    · by_cases h : (NotificationService.checkTasksForNotification tasks now).isEmpty
      · simp [NotificationService.processTaskReminders, h]
      · simp [NotificationService.processTaskReminders, Bool.eq_false_iff.mpr h]

/-! ## Storage service (`storageService.ts`)

The IndexedDB `tasks` object store, keyed by `id`, is modelled as a list of
records together with the key-based primitives `get` and `put`.  The storage
substrate is taken to be healthy: substrate faults only reach the generic
catch-paths, which no claim concerns. -/

/-- The records held by the `tasks` object store. -/
abbrev StoreState := List Task

/-- `db.get(STORE_NAME, id)`: the record with the given key, if any. -/
def dbGet (id : String) (s : StoreState) : Option Task :=
  s.find? (fun t => t.id == id)

/-- `db.put(STORE_NAME, task)`: key-based upsert — replaces the record
carrying the same `id`, or adds the record when the key is absent. -/
def dbPut (task : Task) (s : StoreState) : StoreState :=
  if s.any (fun t => t.id == task.id) then
    s.map (fun t => if t.id == task.id then task else t)
  else
    s ++ [task]

/-- `StorageError` from `storageService.ts`; its `code` union
`'INIT_FAILED' | 'WRITE_FAILED' | 'READ_FAILED' | 'DELETE_FAILED' |
'NOT_SUPPORTED'` is carried as the literal string. -/
structure StorageError where
  message : String
  code : String
deriving DecidableEq, Repr

/-- `StorageService.saveTask`: an unconditional `db.put`. -/
def StorageService.saveTask (task : Task) (s : StoreState) :
    Except StorageError StoreState :=
  Except.ok (dbPut task s)

/-- `StorageService.updateTask`: first `db.get`; when no record with the
task's id exists it throws `StorageError` with code `'WRITE_FAILED'`
(rethrown unchanged by the catch block), otherwise it `db.put`s. -/
def StorageService.updateTask (task : Task) (s : StoreState) :
    Except StorageError StoreState :=
  match dbGet task.id s with
  | none => Except.error { message := "任务不存在: " ++ task.id, code := "WRITE_FAILED" }
  | some _ => Except.ok (dbPut task s)

/-- A concrete record for exercising the store operations. -/
def storedSampleTask : Task :=
  { id := "t9", title := "stored", description := "",
    category := TaskCategory.STUDY, priority := TaskPriority.LOW,
    status := TaskStatus.PENDING, dueDate := none, reminderOption := none,
    createdAt := 0, updatedAt := 0, notificationSent := false }

/-- C3 counterexample: on an id with no existing record, `updateTask` fails
with `StorageError` code `'WRITE_FAILED'` — not `NOT_FOUND`, which is not
even a member of the `StorageError` code union — while `saveTask` (put)
with the same id succeeds. -/
theorem C3_counterexample :
    StorageService.updateTask storedSampleTask []
      = Except.error { message := "任务不存在: t9", code := "WRITE_FAILED" } ∧
    ("WRITE_FAILED" : String) ≠ "NOT_FOUND" ∧
    StorageService.saveTask storedSampleTask [] = Except.ok [storedSampleTask] := by
  refine ⟨rfl, by decide, rfl⟩

/-- C3 (amended): the store's `updateTask` on an id with no current record
fails with `StorageError` carrying code `'WRITE_FAILED'` (its message names
the missing id), while `saveTask` (put) with the same id succeeds; on an id
that does exist, `updateTask` succeeds as an upsert. -/
theorem C3_update_requires_existing (task : Task) (s : StoreState) :
    (dbGet task.id s = none →
      StorageService.updateTask task s =
        Except.error { message := "任务不存在: " ++ task.id, code := "WRITE_FAILED" } ∧
      StorageService.saveTask task s = Except.ok (dbPut task s)) ∧
    (∀ existing : Task, dbGet task.id s = some existing →
      StorageService.updateTask task s = Except.ok (dbPut task s)) := by
  constructor
  · intro h
    rw [StorageService.updateTask, h]
    exact ⟨rfl, rfl⟩
  · intro existing h
    rw [StorageService.updateTask, h]

/-- C3 witness: the amended statement instantiated on the empty store and on
a store already containing the record. -/
theorem C3_update_requires_existing_witness :
    (StorageService.updateTask storedSampleTask []
      = Except.error { message := "任务不存在: " ++ storedSampleTask.id,
                       code := "WRITE_FAILED" } ∧
      StorageService.saveTask storedSampleTask []
        = Except.ok (dbPut storedSampleTask [])) ∧
    StorageService.updateTask storedSampleTask [storedSampleTask]
      = Except.ok (dbPut storedSampleTask [storedSampleTask]) :=
  ⟨(C3_update_requires_existing storedSampleTask []).1 rfl,
   (C3_update_requires_existing storedSampleTask [storedSampleTask]).2
     storedSampleTask rfl⟩

/-! ## Task lifecycle service (`taskService.ts`) -/

/-- JS `String.prototype.trim`: strips leading and trailing whitespace.
Defined structurally over the character list so that concrete instances
compute (Lean's own `String.trim` does not reduce in the kernel). -/
def jsTrim (s : String) : String :=
  String.mk (((s.data.dropWhile Char.isWhitespace).reverse.dropWhile
    Char.isWhitespace).reverse)

/-- `isValidTitle` from `taskService.ts`: the trimmed title is non-empty
(the `typeof title === 'string'` guard always holds under typing). -/
def isValidTitle (title : String) : Bool :=
  decide ((jsTrim title).length > 0)

/-- `isValidDueDate` from `taskService.ts`: `null` is valid, a `Date`
instance is valid iff its time is not NaN. -/
def isValidDueDate (date : Option JSDate) : Bool :=
  match date with
  | none => true
  | some d => d.isSome

/-- `TaskValidationError` from `taskService.ts`; the code union
`'EMPTY_TITLE' | 'INVALID_DATE' | 'TASK_NOT_FOUND'` is carried as the
literal string. -/
structure TaskValidationError where
  message : String
  code : String
deriving DecidableEq, Repr

/-- `CreateTaskInput` from `types/index.ts`: a task minus the generated
fields, with `reminderOption` optional.  `dueDate` is `Date | null`, where
the `Date` may still be an invalid one (hence `Option JSDate`). -/
structure CreateTaskInput where
  title : String
  description : String
  category : TaskCategory
  priority : TaskPriority
  status : TaskStatus
  dueDate : Option JSDate
  reminderOption : Option ReminderOption
deriving DecidableEq, Repr

/-- `TaskService.createTask`, with the generated UUID and `new Date()` made
explicit parameters.  After validation, `dueDate.join` carries the stored
date's time exactly (null stays null; a valid date keeps its time — the
invalid-date collapse is unreachable past `isValidDueDate`).  The source's
object literal omits `reminderOption`, so the created record carries the
JS `undefined`, i.e. `none`; `description || ''` is the identity on the
(string-typed) description. -/
def TaskService.createTask (taskData : CreateTaskInput) (now : Int) (newId : String) :
    Except TaskValidationError Task :=
  if ¬ isValidTitle taskData.title then
    Except.error { message := "任务标题不能为空", code := "EMPTY_TITLE" }
  else if ¬ isValidDueDate taskData.dueDate then
    Except.error { message := "截止日期无效", code := "INVALID_DATE" }
  else
    Except.ok
      { id := newId,
        title := jsTrim taskData.title,
        description := taskData.description,
        category := taskData.category,
        priority := taskData.priority,
        status := taskData.status,
        dueDate := taskData.dueDate.join,
        reminderOption := none,
        createdAt := now,
        updatedAt := now,
        notificationSent := false }

/-- `UpdateTaskInput` from `types/index.ts`: `Partial<Omit<Task, 'id' |
'createdAt'>>` — each field `none` when absent from the patch.  A present
`dueDate` is `Date | null` (`Option JSDate`). -/
structure UpdateTaskInput where
  title : Option String
  description : Option String
  category : Option TaskCategory
  priority : Option TaskPriority
  status : Option TaskStatus
  dueDate : Option (Option JSDate)
  reminderOption : Option ReminderOption
  updatedAt : Option Int
  notificationSent : Option Bool
deriving DecidableEq, Repr

/-- The spread `{ ...tasks[taskIndex], ...updates, updatedAt: new Date() }`:
present patch fields override the record, and `updatedAt` is always the
fresh timestamp (overriding even a patched value).  For `dueDate`,
`Option.join` carries a valid present value exactly (the invalid-date
collapse is unreachable past `isValidDueDate`). -/
def applyUpdates (task : Task) (updates : UpdateTaskInput) (now : Int) : Task :=
  { id := task.id,
    title := match updates.title with | none => task.title | some t => t,
    description := match updates.description with | none => task.description | some d => d,
    category := match updates.category with | none => task.category | some c => c,
    priority := match updates.priority with | none => task.priority | some p => p,
    status := match updates.status with | none => task.status | some st => st,
    dueDate := match updates.dueDate with | none => task.dueDate | some v => v.join,
    reminderOption := match updates.reminderOption with
      | none => task.reminderOption
      | some r => some r,
    createdAt := task.createdAt,
    updatedAt := now,
    notificationSent := match updates.notificationSent with
      | none => task.notificationSent
      | some b => b }

/-- `TaskService.updateTask`: find the record by id (`TASK_NOT_FOUND` when
absent), validate a present title and a present due date, merge the patch,
re-trim the title when the patch carried one, and replace the record at the
found index of a fresh array.  The inner `none` branch of the index lookup
is unreachable (the found index is in range) and mirrors the not-found
error. -/
def TaskService.updateTask (taskId : String) (updates : UpdateTaskInput)
    (tasks : List Task) (now : Int) : Except TaskValidationError (List Task) :=
  match tasks.findIdx? (fun t => t.id == taskId) with
  | none => Except.error { message := "任务不存在: " ++ taskId, code := "TASK_NOT_FOUND" }
  | some taskIndex =>
    let titleOk : Bool := match updates.title with | none => true | some t => isValidTitle t
    let dateOk : Bool := match updates.dueDate with | none => true | some d => isValidDueDate d
    if !titleOk then
      Except.error { message := "任务标题不能为空", code := "EMPTY_TITLE" }
    else if !dateOk then
      Except.error { message := "截止日期无效", code := "INVALID_DATE" }
    else
      match tasks[taskIndex]? with
      | none =>
        Except.error { message := "任务不存在: " ++ taskId, code := "TASK_NOT_FOUND" }
      | some old =>
        let merged := applyUpdates old updates now
        let updatedTask :=
          match updates.title with
          | none => merged
          | some _ => { merged with title := jsTrim merged.title }
        Except.ok (tasks.set taskIndex updatedTask)

/-- `TaskService.deleteTask`: keep every record whose id differs. -/
def TaskService.deleteTask (taskId : String) (tasks : List Task) : List Task :=
  tasks.filter (fun t => !(t.id == taskId))

/-- `TaskService.toggleTaskStatus`: find the record by id (`TASK_NOT_FOUND`
when absent), flip pending↔completed, refresh `updatedAt`, and replace the
record at the found index of a fresh array.  The inner `none` branch is
unreachable, as in `updateTask`. -/
def TaskService.toggleTaskStatus (taskId : String) (tasks : List Task) (now : Int) :
    Except TaskValidationError (List Task) :=
  match tasks.findIdx? (fun t => t.id == taskId) with
  | none => Except.error { message := "任务不存在: " ++ taskId, code := "TASK_NOT_FOUND" }
  | some taskIndex =>
    match tasks[taskIndex]? with
    | none =>
      Except.error { message := "任务不存在: " ++ taskId, code := "TASK_NOT_FOUND" }
    | some task =>
      let newStatus :=
        if task.status = TaskStatus.PENDING then TaskStatus.COMPLETED
        else TaskStatus.PENDING
      Except.ok (tasks.set taskIndex { task with status := newStatus, updatedAt := now })

/-- A title is accepted exactly when it does not trim to the empty string. -/
theorem isValidTitle_iff (title : String) :
    isValidTitle title = true ↔ jsTrim title ≠ "" := by
  constructor
  · intro h heq
    rw [isValidTitle, decide_eq_true_eq] at h
    rw [heq] at h
    simp [String.length] at h
  · intro h
    rw [isValidTitle, decide_eq_true_eq]
    rcases hd : (jsTrim title).data with _ | ⟨c, cs⟩
    · exact absurd (String.ext hd) h
    · show 0 < (jsTrim title).data.length
      rw [hd]
      simp

/-- C4 (amended): `createTask` rejects with `TaskValidationError` code
`EMPTY_TITLE` every input whose title trims to the empty string (empty or
whitespace-only), and with code `INVALID_DATE` every input whose title is
acceptable but whose due date is a present, ill-formed instant; it imposes
no title-length bound — every input with a non-empty trimmed title and a
well-formed (or null) due date is accepted, however long its title. -/
theorem C4_createTask_validation (taskData : CreateTaskInput) (now : Int)
    (newId : String) :
    (jsTrim taskData.title = "" →
      TaskService.createTask taskData now newId =
        Except.error { message := "任务标题不能为空", code := "EMPTY_TITLE" }) ∧
    (jsTrim taskData.title ≠ "" → taskData.dueDate = some none →
      TaskService.createTask taskData now newId =
        Except.error { message := "截止日期无效", code := "INVALID_DATE" }) ∧
    (jsTrim taskData.title ≠ "" → isValidDueDate taskData.dueDate = true →
      (TaskService.createTask taskData now newId).isOk = true) := by
  refine ⟨?_, ?_, ?_⟩
  · intro h
    have hv : isValidTitle taskData.title ≠ true := fun hc =>
      absurd h ((isValidTitle_iff _).mp hc)
    simp [TaskService.createTask, hv]
  · intro h hd
    have hv : isValidTitle taskData.title = true := (isValidTitle_iff _).mpr h
    simp [TaskService.createTask, hv, hd, isValidDueDate]
  · intro h hd
    have hv : isValidTitle taskData.title = true := (isValidTitle_iff _).mpr h
    simp [TaskService.createTask, hv, hd, Except.isOk, Except.toBool]

/-- An input whose trimmed title is 101 characters long. -/
def longTitleInput : CreateTaskInput :=
  { title := String.mk (List.replicate 101 'x'), description := "",
    category := TaskCategory.WORK, priority := TaskPriority.MEDIUM,
    status := TaskStatus.PENDING, dueDate := none, reminderOption := none }

/-- C4 counterexample: an input whose trimmed title has 101 characters is
accepted by `createTask` — the 100-character bound exists only in the form
UI, not in the service's validation. -/
theorem C4_counterexample :
    (jsTrim longTitleInput.title).length = 101 ∧
    (TaskService.createTask longTitleInput 0 "u1").isOk = true := by
  constructor
  · decide
  · decide

/-- An input with an empty title. -/
def emptyTitleInput : CreateTaskInput :=
  { title := "", description := "", category := TaskCategory.WORK,
    priority := TaskPriority.MEDIUM, status := TaskStatus.PENDING,
    dueDate := none, reminderOption := none }

/-- An input whose title is whitespace only. -/
def blankTitleInput : CreateTaskInput :=
  { title := "  ", description := "", category := TaskCategory.WORK,
    priority := TaskPriority.MEDIUM, status := TaskStatus.PENDING,
    dueDate := none, reminderOption := none }

/-- An input with a valid title but a present, ill-formed due date. -/
def badDateInput : CreateTaskInput :=
  { title := "ok", description := "", category := TaskCategory.WORK,
    priority := TaskPriority.MEDIUM, status := TaskStatus.PENDING,
    dueDate := some none, reminderOption := none }

/-- C4 witness: the validation rules instantiated at concrete inputs —
empty title, whitespace-only title, invalid date, and a 101-character
title that is accepted. -/
theorem C4_createTask_validation_witness :
    TaskService.createTask emptyTitleInput 0 "id1" =
      Except.error { message := "任务标题不能为空", code := "EMPTY_TITLE" } ∧
    TaskService.createTask blankTitleInput 0 "id2" =
      Except.error { message := "任务标题不能为空", code := "EMPTY_TITLE" } ∧
    TaskService.createTask badDateInput 0 "id3" =
      Except.error { message := "截止日期无效", code := "INVALID_DATE" } ∧
    (TaskService.createTask longTitleInput 0 "id4").isOk = true :=
  ⟨(C4_createTask_validation emptyTitleInput 0 "id1").1 (by decide),
   (C4_createTask_validation blankTitleInput 0 "id2").1 (by decide),
   (C4_createTask_validation badDateInput 0 "id3").2.1 (by decide) rfl,
   (C4_createTask_validation longTitleInput 0 "id4").2.2 (by decide) rfl⟩

/-- `findIdx?` only answers an in-range index whose element satisfies the
predicate. -/
theorem findIdx?_some_spec {α : Type} (p : α → Bool) (l : List α) (i : Nat)
    (h : l.findIdx? p = some i) : ∃ a, l[i]? = some a ∧ p a = true := by
  induction l generalizing i with
  | nil => simp [List.findIdx?] at h
  | cons x xs ih =>
    rw [List.findIdx?_cons] at h
    by_cases hp : p x = true
    · rw [if_pos hp] at h
      obtain rfl : 0 = i := Option.some.inj h
      exact ⟨x, by simp, hp⟩
    · rw [if_neg hp, List.findIdx?_succ] at h
      rcases hfind : xs.findIdx? p with _ | j
      · rw [hfind] at h
        simp at h
      · rw [hfind] at h
        obtain rfl : j + 1 = i := Option.some.inj (by simpa using h)
        obtain ⟨a, ha, hpa⟩ := ih j hfind
        exact ⟨a, by simpa [List.getElem?_cons_succ] using ha, hpa⟩

/-- Shape of a successful `TaskService.updateTask`: the target is the first
record matching the id, and the output is the input with exactly that index
replaced by the merged (and, when the patch carries a title, re-trimmed)
record. -/
theorem updateTask_ok_shape (taskId : String) (updates : UpdateTaskInput)
    (tasks newTasks : List Task) (now : Int)
    (hok : TaskService.updateTask taskId updates tasks now = Except.ok newTasks) :
    ∃ i old, tasks.findIdx? (fun t => t.id == taskId) = some i ∧
      tasks[i]? = some old ∧
      newTasks = tasks.set i
        (match updates.title with
         | none => applyUpdates old updates now
         | some _ => { applyUpdates old updates now with
                       title := jsTrim (applyUpdates old updates now).title }) := by
  rcases hfind : tasks.findIdx? (fun t => t.id == taskId) with _ | i
  · rw [TaskService.updateTask, hfind] at hok
    cases hok
  · rcases hold : tasks[i]? with _ | old
    · rw [TaskService.updateTask, hfind] at hok
      simp only [hold] at hok
      split_ifs at hok <;> cases hok
    · refine ⟨i, old, hfind, hold, ?_⟩
      rw [TaskService.updateTask, hfind] at hok
      simp only [hold] at hok
      split_ifs at hok <;> cases hok <;> rfl

/-- Shape of a successful `TaskService.toggleTaskStatus`: the output is the
input with the first id-matching record replaced by the status-flipped,
timestamp-refreshed record. -/
theorem toggleTaskStatus_ok_shape (taskId : String) (tasks newTasks : List Task)
    (now : Int)
    (hok : TaskService.toggleTaskStatus taskId tasks now = Except.ok newTasks) :
    ∃ i task, tasks.findIdx? (fun t => t.id == taskId) = some i ∧
      tasks[i]? = some task ∧
      newTasks = tasks.set i
        { task with
          status := if task.status = TaskStatus.PENDING then TaskStatus.COMPLETED
            else TaskStatus.PENDING,
          updatedAt := now } := by
  rcases hfind : tasks.findIdx? (fun t => t.id == taskId) with _ | i
  · rw [TaskService.toggleTaskStatus, hfind] at hok
    cases hok
  · rcases hold : tasks[i]? with _ | task
    · rw [TaskService.toggleTaskStatus, hfind] at hok
      simp only [hold] at hok
      cases hok
    · refine ⟨i, task, hfind, hold, ?_⟩
      rw [TaskService.toggleTaskStatus, hfind] at hok
      simp only [hold] at hok
      exact (Except.ok.inj hok).symm

/-- A concrete pending task carrying a due date, a 5-minute reminder and an
already-set notified flag. -/
def reminderTask : Task :=
  { id := "r1", title := "with reminder", description := "",
    category := TaskCategory.WORK, priority := TaskPriority.MEDIUM,
    status := TaskStatus.PENDING, dueDate := some 1000,
    reminderOption := some ReminderOption.FIVE_MIN,
    createdAt := 0, updatedAt := 0, notificationSent := true }

/-- A patch that only clears the due date (sets it to null). -/
def clearDuePatch : UpdateTaskInput :=
  { title := none, description := none, category := none, priority := none,
    status := none, dueDate := some none, reminderOption := none,
    updatedAt := none, notificationSent := none }

/-- C5 counterexample: an accepted update whose patch clears the due date
leaves `reminderOption` at `5min` and the notified flag at `true` — the
claimed reset does not happen in `TaskService.updateTask`. -/
theorem C5_counterexample :
    TaskService.updateTask "r1" clearDuePatch [reminderTask] 5 =
      Except.ok [{ reminderTask with dueDate := none, updatedAt := 5 }] ∧
    ({ reminderTask with dueDate := none, updatedAt := 5 } : Task).reminderOption =
      some ReminderOption.FIVE_MIN ∧
    ({ reminderTask with dueDate := none, updatedAt := 5 } : Task).notificationSent =
      true := by
  refine ⟨?_, rfl, rfl⟩
  rfl

/-- C5 (amended): `TaskService.updateTask` merges an accepted patch
verbatim.  When the patch clears the due date the resulting record's due
date is null, but its `reminderOption` and notified flag are NOT reset by
the service: a patch silent on them leaves the prior values in place, and
the invariant "reminderLead none and notified false whenever dueAt unset"
holds after the update only when the patch itself carries
`reminderOption = none` and `notified = false` (as the application's edit
flow always does). -/
theorem C5_clear_due_no_reset (taskId : String) (updates : UpdateTaskInput)
    (tasks newTasks : List Task) (now : Int) (i : Nat) (old : Task)
    (hfind : tasks.findIdx? (fun t => t.id == taskId) = some i)
    (hold : tasks[i]? = some old)
    (hok : TaskService.updateTask taskId updates tasks now = Except.ok newTasks)
    (hdue : updates.dueDate = some none) :
    newTasks[i]?.map Task.dueDate = some none ∧
    (updates.reminderOption = none → updates.notificationSent = none →
      newTasks[i]?.map Task.reminderOption = some old.reminderOption ∧
      newTasks[i]?.map Task.notificationSent = some old.notificationSent) ∧
    (updates.reminderOption = some ReminderOption.NONE →
      updates.notificationSent = some false →
      newTasks[i]?.map Task.reminderOption = some (some ReminderOption.NONE) ∧
      newTasks[i]?.map Task.notificationSent = some false) := by
  obtain ⟨i', old', hfind', hold', rfl⟩ :=
    updateTask_ok_shape taskId updates tasks newTasks now hok
  have hii : i' = i := by
    rw [hfind'] at hfind
    exact Option.some.inj hfind
  subst hii
  have hoo : old' = old := by
    rw [hold'] at hold
    exact Option.some.inj hold
  subst hoo
  have hlt := (List.getElem?_eq_some.mp hold').1
  rw [List.getElem?_set_self hlt]
  rcases updates.title with _ | t0 <;>
    refine ⟨by simp [applyUpdates, hdue, Option.join], fun h1 h2 => ?_, fun h1 h2 => ?_⟩ <;>
    simp [applyUpdates, h1, h2]

/-- The patch the application's edit flow produces when the due date is
cleared: due date null, reminder reset to the `none` member, notified flag
reset to false. -/
def resetPatch : UpdateTaskInput :=
  { title := none, description := none, category := none, priority := none,
    status := none, dueDate := some none,
    reminderOption := some ReminderOption.NONE,
    updatedAt := none, notificationSent := some false }

/-- The record produced by applying `resetPatch` to `reminderTask`. -/
def resetResultTask : Task :=
  { reminderTask with
    dueDate := none, reminderOption := some ReminderOption.NONE,
    notificationSent := false, updatedAt := 5 }

/-- The task list after the reset update. -/
def resetResultList : List Task :=
  [resetResultTask]

/-- C5 witness: the amended statement instantiated at `reminderTask` under
the app-style reset patch. -/
theorem C5_clear_due_no_reset_witness :
    resetResultList[0]?.map Task.dueDate = some none ∧
    (resetPatch.reminderOption = none → resetPatch.notificationSent = none →
      resetResultList[0]?.map Task.reminderOption = some reminderTask.reminderOption ∧
      resetResultList[0]?.map Task.notificationSent =
        some reminderTask.notificationSent) ∧
    (resetPatch.reminderOption = some ReminderOption.NONE →
      resetPatch.notificationSent = some false →
      resetResultList[0]?.map Task.reminderOption = some (some ReminderOption.NONE) ∧
      resetResultList[0]?.map Task.notificationSent = some false) :=
  C5_clear_due_no_reset "r1" resetPatch [reminderTask] resetResultList 5 0
    reminderTask (by rfl) (by rfl) (by rfl) (by rfl)

/-- C10: a successful `updateTask` or `toggleTaskStatus` yields an array of
the same length in which every position holding a record whose id differs
from the target is unchanged (the lifecycle functions build fresh arrays
rather than mutating — modelled by pure functions); `deleteTask` yields a
subsequence of the input (relative order preserved) containing exactly the
records whose id differs from the target. -/
theorem C10_frame_conditions (taskId : String) (updates : UpdateTaskInput)
    (tasks newTasks toggled : List Task) (now : Int) :
    (TaskService.updateTask taskId updates tasks now = Except.ok newTasks →
      newTasks.length = tasks.length ∧
      ∀ (j : Nat) (t : Task), tasks[j]? = some t → t.id ≠ taskId →
        newTasks[j]? = some t) ∧
    (TaskService.toggleTaskStatus taskId tasks now = Except.ok toggled →
      toggled.length = tasks.length ∧
      ∀ (j : Nat) (t : Task), tasks[j]? = some t → t.id ≠ taskId →
        toggled[j]? = some t) ∧
    ((TaskService.deleteTask taskId tasks).Sublist tasks ∧
      ∀ t : Task, t ∈ TaskService.deleteTask taskId tasks ↔
        t ∈ tasks ∧ t.id ≠ taskId) := by
  refine ⟨?_, ?_, List.filter_sublist tasks, ?_⟩
  · intro hok
    obtain ⟨i, old, hfind, hold, rfl⟩ :=
      updateTask_ok_shape taskId updates tasks newTasks now hok
    refine ⟨List.length_set tasks i _, fun j t htj hne => ?_⟩
    obtain ⟨a, ha, hpa⟩ := findIdx?_some_spec _ tasks i hfind
    have hij : i ≠ j := by
      rintro rfl
      exact hne (beq_iff_eq.mp ((Option.some.inj (ha ▸ htj)) ▸ hpa))
    rw [List.getElem?_set_ne hij]
    exact htj
  · intro hok
    obtain ⟨i, task, hfind, hold, rfl⟩ :=
      toggleTaskStatus_ok_shape taskId tasks toggled now hok
    refine ⟨List.length_set tasks i _, fun j t htj hne => ?_⟩
    obtain ⟨a, ha, hpa⟩ := findIdx?_some_spec _ tasks i hfind
    have hij : i ≠ j := by
      rintro rfl
      exact hne (beq_iff_eq.mp ((Option.some.inj (ha ▸ htj)) ▸ hpa))
    rw [List.getElem?_set_ne hij]
    exact htj
  · intro t
    rw [TaskService.deleteTask, List.mem_filter]
    simp

/-- A concrete first task. -/
def sampleA : Task :=
  { id := "a", title := "A", description := "", category := TaskCategory.WORK,
    priority := TaskPriority.HIGH, status := TaskStatus.PENDING, dueDate := none,
    reminderOption := none, createdAt := 0, updatedAt := 0,
    notificationSent := false }

/-- A concrete second task. -/
def sampleB : Task :=
  { id := "b", title := "B", description := "", category := TaskCategory.LIFE,
    priority := TaskPriority.LOW, status := TaskStatus.PENDING, dueDate := none,
    reminderOption := none, createdAt := 1, updatedAt := 1,
    notificationSent := false }

/-- An empty patch (every field absent). -/
def emptyPatch : UpdateTaskInput :=
  { title := none, description := none, category := none, priority := none,
    status := none, dueDate := none, reminderOption := none,
    updatedAt := none, notificationSent := none }

/-- C10 witness: frame conditions instantiated on a two-task list, updating
and toggling `"a"` and checking that position 1 (`sampleB`) is untouched,
and deleting `"a"` keeps exactly `sampleB`. -/
theorem C10_frame_conditions_witness :
    [{ sampleA with updatedAt := 7 }, sampleB].length = [sampleA, sampleB].length ∧
    [{ sampleA with updatedAt := 7 }, sampleB][1]? = some sampleB ∧
    [{ sampleA with status := TaskStatus.COMPLETED, updatedAt := 7 },
      sampleB].length = [sampleA, sampleB].length ∧
    [{ sampleA with status := TaskStatus.COMPLETED, updatedAt := 7 },
      sampleB][1]? = some sampleB ∧
    sampleB ∈ TaskService.deleteTask "a" [sampleA, sampleB] ∧
    sampleA ∉ TaskService.deleteTask "a" [sampleA, sampleB] := by
  have h := C10_frame_conditions "a" emptyPatch [sampleA, sampleB]
    [{ sampleA with updatedAt := 7 }, sampleB]
    [{ sampleA with status := TaskStatus.COMPLETED, updatedAt := 7 }, sampleB] 7
  refine ⟨(h.1 rfl).1, (h.1 rfl).2 1 sampleB rfl (by decide),
    (h.2.1 rfl).1, (h.2.1 rfl).2 1 sampleB rfl (by decide),
    (h.2.2.2 sampleB).mpr ⟨by simp, by decide⟩,
    fun hm => absurd rfl ((h.2.2.2 sampleA).mp hm).2⟩

end TodoApp
